import Mathlib

/-!
# News-analytics ingestion pipeline: a shallow embedding

This file embeds the core of the `news-analytics-api` repository —
the ingestion/deduplication/storage worker pipeline — as executable
Lean definitions, and proves the specification claims about it.

Sources embedded:
* `app/lambda_worker_handler.py` (`process_single_message`)
* `app/models/article.py` (`Article`, `Article.generate_hash`)
* `app/services/normalizer.py` (`ArticleNormalizer`)
* `app/services/redis_client.py` (`RedisDeduplication`)
* `app/services/s3_client.py` (`S3Client` key generation / store calls)

Python semantics are modelled on the ASCII subset (all constants in the
code and in the claims are ASCII): `str.lower`, `str.strip`,
`str.isalnum` act characterwise / on ASCII ranges exactly as CPython
does there.
-/

namespace NewsPipeline

/-! ## Python string primitives (ASCII fragment) -/

/-- The characters CPython's `str.strip()` removes (ASCII whitespace:
space, tab, linefeed, carriage return, vertical tab, form feed). -/
def pyIsSpace (c : Char) : Bool :=
  c = ' ' || c = '\t' || c = '\n' || c = '\r' || c.toNat = 11 || c.toNat = 12

/-- CPython `str.lower()` on one ASCII character. -/
def pyLowerChar (c : Char) : Char :=
  if 65 ≤ c.toNat && c.toNat ≤ 90 then Char.ofNat (c.toNat + 32) else c

/-- CPython `str.lower()` (ASCII fragment): characterwise lowering. -/
def pyLower (s : String) : String :=
  ⟨s.data.map pyLowerChar⟩

/-- CPython `str.strip()`: drop leading and trailing whitespace. -/
def pyStrip (s : String) : String :=
  ⟨((s.data.dropWhile pyIsSpace).reverse.dropWhile pyIsSpace).reverse⟩

/-- CPython `str.isalnum()` on one ASCII character. -/
def pyIsAlnum (c : Char) : Bool :=
  (48 ≤ c.toNat && c.toNat ≤ 57) ||
  (65 ≤ c.toNat && c.toNat ≤ 90) ||
  (97 ≤ c.toNat && c.toNat ≤ 122)

/-! ## UTF-8 encoding (CPython `str.encode("utf-8")`) -/

/-- UTF-8 bytes of a single code point. -/
def utf8EncodeChar (c : Char) : List Nat :=
  let n := c.toNat
  if n < 0x80 then [n]
  else if n < 0x800 then
    [0xC0 ||| (n >>> 6), 0x80 ||| (n &&& 0x3F)]
  else if n < 0x10000 then
    [0xE0 ||| (n >>> 12), 0x80 ||| ((n >>> 6) &&& 0x3F), 0x80 ||| (n &&& 0x3F)]
  else
    [0xF0 ||| (n >>> 18), 0x80 ||| ((n >>> 12) &&& 0x3F),
     0x80 ||| ((n >>> 6) &&& 0x3F), 0x80 ||| (n &&& 0x3F)]

/-- `s.encode("utf-8")` as a byte list. -/
def utf8Encode (s : String) : List Nat :=
  s.data.foldr (fun c acc => utf8EncodeChar c ++ acc) []

/-! ## SHA-256 (`hashlib.sha256`), executable over `Nat` bytes -/

/-- 2^32, the word modulus of SHA-256. -/
def M32 : Nat := 4294967296

/-- Addition modulo 2^32. -/
def add32 (a b : Nat) : Nat := (a + b) % M32

/-- Right rotation of a 32-bit word. -/
def rotr32 (x n : Nat) : Nat := ((x >>> n) ||| (x <<< (32 - n))) % M32

/-- The SHA-256 round constants. -/
def sha256K : List Nat :=
  [1116352408, 1899447441, 3049323471, 3921009573, 961987163, 1508970993,
   2453635748, 2870763221, 3624381080, 310598401, 607225278, 1426881987,
   1925078388, 2162078206, 2614888103, 3248222580, 3835390401, 4022224774,
   264347078, 604807628, 770255983, 1249150122, 1555081692, 1996064986,
   2554220882, 2821834349, 2952996808, 3210313671, 3336571891, 3584528711,
   113926993, 338241895, 666307205, 773529912, 1294757372, 1396182291,
   1695183700, 1986661051, 2177026350, 2456956037, 2730485921, 2820302411,
   3259730800, 3345764771, 3516065817, 3600352804, 4094571909, 275423344,
   430227734, 506948616, 659060556, 883997877, 958139571, 1322822218,
   1537002063, 1747873779, 1955562222, 2024104815, 2227730452, 2361852424,
   2428436474, 2756734187, 3204031479, 3329325298]

/-- The SHA-256 `Ch` function. -/
def shaCh (x y z : Nat) : Nat := (x &&& y) ^^^ ((x ^^^ 0xffffffff) &&& z)

/-- The SHA-256 `Maj` function. -/
def shaMaj (x y z : Nat) : Nat := (x &&& y) ^^^ (x &&& z) ^^^ (y &&& z)

/-- SHA-256 Σ0. -/
def bigSigma0 (x : Nat) : Nat := rotr32 x 2 ^^^ rotr32 x 13 ^^^ rotr32 x 22

/-- SHA-256 Σ1. -/
def bigSigma1 (x : Nat) : Nat := rotr32 x 6 ^^^ rotr32 x 11 ^^^ rotr32 x 25

/-- SHA-256 σ0. -/
def smallSigma0 (x : Nat) : Nat := rotr32 x 7 ^^^ rotr32 x 18 ^^^ (x >>> 3)

/-- SHA-256 σ1. -/
def smallSigma1 (x : Nat) : Nat := rotr32 x 17 ^^^ rotr32 x 19 ^^^ (x >>> 10)

/-- Big-endian byte expansion (`n` bytes). -/
def beBytes : Nat → Nat → List Nat
  | 0, _ => []
  | n + 1, v => beBytes n (v / 256) ++ [v % 256]

/-- SHA-256 message padding: `0x80`, zeros to 56 mod 64, then the
64-bit big-endian bit length. -/
def padMessage (msg : List Nat) : List Nat :=
  let L := msg.length
  let padZeros := (119 - L % 64) % 64
  msg ++ [0x80] ++ List.replicate padZeros 0 ++ beBytes 8 (L * 8)

/-- Split a byte list into 64-byte blocks (fuel-driven structural
recursion so the kernel can evaluate it). -/
def chunks64 : Nat → List Nat → List (List Nat)
  | 0, _ => []
  | _, [] => []
  | fuel + 1, bs => bs.take 64 :: chunks64 fuel (bs.drop 64)

/-- Group bytes into big-endian 32-bit words. -/
def bytesToWords : List Nat → List Nat
  | b0 :: b1 :: b2 :: b3 :: rest =>
      (((b0 * 256 + b1) * 256 + b2) * 256 + b3) :: bytesToWords rest
  | _ => []

/-- Extend the message schedule; `acc` holds the words produced so far,
most recent first. -/
def extendSched : Nat → List Nat → List Nat
  | 0, acc => acc
  | f + 1, acc =>
      let t := add32
        (add32 (smallSigma1 (acc.getD 1 0)) (acc.getD 6 0))
        (add32 (smallSigma0 (acc.getD 14 0)) (acc.getD 15 0))
      extendSched f (t :: acc)

/-- The eight 32-bit working variables of SHA-256. -/
structure Sha256State where
  a : Nat
  b : Nat
  c : Nat
  d : Nat
  e : Nat
  f : Nat
  g : Nat
  h : Nat
deriving Repr, DecidableEq

/-- The SHA-256 initial hash value. -/
def sha256Init : Sha256State :=
  ⟨1779033703, 3144134277, 1013904242, 2773480762,
   1359893119, 2600822924, 528734635, 1541459225⟩

/-- One SHA-256 compression round. -/
def compressRound (st : Sha256State) (k w : Nat) : Sha256State :=
  let t1 := add32 st.h (add32 (bigSigma1 st.e) (add32 (shaCh st.e st.f st.g) (add32 k w)))
  let t2 := add32 (bigSigma0 st.a) (shaMaj st.a st.b st.c)
  ⟨add32 t1 t2, st.a, st.b, st.c, add32 st.d t1, st.e, st.f, st.g⟩

/-- Process one 64-byte block. -/
def processBlock (st : Sha256State) (block : List Nat) : Sha256State :=
  let w16 := bytesToWords block
  let sched := (extendSched 48 w16.reverse).reverse
  let e := (sha256K.zip sched).foldl (fun s kw => compressRound s kw.1 kw.2) st
  ⟨add32 st.a e.a, add32 st.b e.b, add32 st.c e.c, add32 st.d e.d,
   add32 st.e e.e, add32 st.f e.f, add32 st.g e.g, add32 st.h e.h⟩

/-- SHA-256 digest of a byte list, as 32 bytes. -/
def sha256Bytes (msg : List Nat) : List Nat :=
  let padded := padMessage msg
  let st := (chunks64 padded.length padded).foldl processBlock sha256Init
  beBytes 4 st.a ++ beBytes 4 st.b ++ beBytes 4 st.c ++ beBytes 4 st.d ++
  beBytes 4 st.e ++ beBytes 4 st.f ++ beBytes 4 st.g ++ beBytes 4 st.h

/-- One lowercase hex digit. -/
def hexDigit (n : Nat) : Char :=
  if n < 10 then Char.ofNat (48 + n) else Char.ofNat (87 + n)

/-- Lowercase hex string of a byte list. -/
def bytesToHex (bs : List Nat) : String :=
  ⟨bs.foldr (fun b acc => hexDigit (b / 16) :: hexDigit (b % 16) :: acc) []⟩

/-- CPython `hashlib.sha256(s.encode()).hexdigest()`. -/
def sha256HexOfString (s : String) : String :=
  bytesToHex (sha256Bytes (utf8Encode s))

/-! ## pydantic v2 `HttpUrl`

`app/models/article.py` declares `url: HttpUrl`; the pydantic library
(a dependency, not part of this repository) parses the string on
`Article(...)` construction and `str(self.url)` re-serializes it. -/

/-- A parsed pydantic v2 `HttpUrl`: scheme, host, and the remainder
(path/query/fragment) kept verbatim. -/
structure PyHttpUrl where
  scheme : String
  host : String
  rest : String
deriving Repr, DecidableEq

/-- Split a character list at the first `://`. -/
def splitScheme : List Char → Option (List Char × List Char)
  | [] => none
  | ':' :: '/' :: '/' :: rest => some ([], rest)
  | c :: rest => (splitScheme rest).map (fun p => (c :: p.1, p.2))

/-- Host characters this model accepts: ASCII letters, digits, hyphen,
dot, underscore — characters pydantic's WHATWG host parsing passes
through unchanged. Forbidden host code points (space, controls, `@`,
`%`, brackets, …) and anything needing IDNA are outside this set. -/
def isHostChar (c : Char) : Bool :=
  pyIsAlnum c || c = '-' || c = '.' || c = '_'

/-- Path/query/fragment characters this model accepts: those pydantic
re-emits verbatim on serialization. Characters the WHATWG serializer
percent-encodes (space, quotes, angle brackets, braces, controls, …)
are outside this set. -/
def isRestChar (c : Char) : Bool :=
  pyIsAlnum c || c = '/' || c = '.' || c = '-' || c = '_' || c = '~' || c = '%' ||
  c = '?' || c = '#' || c = '=' || c = '&' || c = '+' || c = ':' || c = '@' ||
  c = ',' || c = ';' || c = '!' || c = '$' || c = '(' || c = ')' || c = '*'

/-- Modelled from pydantic v2 `HttpUrl` validation (library dependency):
`UrlConstraints(max_length=2083, allowed_schemes=["http","https"])`
over a WHATWG URL parse — the input is at most 2083 characters, the
scheme `http` or `https`, the host nonempty and free of forbidden host
code points; scheme and host are lower-cased. The model is
conservative where pydantic's grammar is richer: URLs with ports,
userinfo, non-ASCII labels, or characters the serializer would
percent-encode are rejected here, so a successful parse in this model
is always one the library accepts and serializes verbatim (up to the
trailing slash of `PyHttpUrl.str`). -/
def parseHttpUrl (s : String) : Option PyHttpUrl :=
  if 2083 < s.length then none
  else
    match splitScheme s.data with
    | none => none
    | some (sch, hr) =>
      let scheme := pyLower ⟨sch⟩
      if scheme = "http" || scheme = "https" then
        let host := hr.takeWhile (fun c => !(c = '/' || c = '?' || c = '#'))
        let rest := hr.dropWhile (fun c => !(c = '/' || c = '?' || c = '#'))
        if host = [] || !host.all isHostChar || !rest.all isRestChar then none
        else some ⟨scheme, pyLower ⟨host⟩, ⟨rest⟩⟩
      else none

/-- Modelled from pydantic v2 URL serialization (`str(self.url)`):
pydantic-core re-emits the normalized URL, appending a `/` path when the
parsed URL has none (e.g. `https://example.com` prints as
`https://example.com/`). -/
def PyHttpUrl.str (u : PyHttpUrl) : String :=
  u.scheme ++ "://" ++ u.host ++
    (if u.rest.data.head? = some '/' then u.rest else "/" ++ u.rest)

/-! ## datetimes and `dateutil.parser.isoparse` -/

/-- A Python `datetime` as far as this pipeline observes it. -/
structure PyDatetime where
  year : Nat
  month : Nat
  day : Nat
  hour : Nat
  minute : Nat
  second : Nat
  microsecond : Nat
  tzOffsetMinutes : Option Int
deriving Repr, DecidableEq

/-- ASCII decimal digit test. -/
def isDigit (c : Char) : Bool := 48 ≤ c.toNat && c.toNat ≤ 57

/-- Value of a digit list, most significant first. -/
def digitsToNat (cs : List Char) : Nat :=
  cs.foldl (fun n c => n * 10 + (c.toNat - 48)) 0

/-- Read exactly `n` decimal digits off the front. -/
def takeDigits : Nat → List Char → Option (Nat × List Char)
  | 0, cs => some (0, cs)
  | n + 1, c :: cs =>
      if isDigit c then
        (takeDigits n cs).map (fun p => ((c.toNat - 48) * 10 ^ n + p.1, p.2))
      else none
  | _ + 1, [] => none

/-- Day count of a month (proleptic Gregorian, as Python `datetime`). -/
def daysInMonth (y m : Nat) : Nat :=
  if m = 2 then
    if y % 4 = 0 && (y % 100 ≠ 0 || y % 400 = 0) then 29 else 28
  else if m = 4 || m = 6 || m = 9 || m = 11 then 30
  else 31

/-- Parse the trailing timezone designator: empty, `Z`, or `±HH:MM`. -/
def parseTzSuffix : List Char → Option (Option Int)
  | [] => some none
  | ['Z'] => some (some 0)
  | sign :: cs =>
      if sign = '+' || sign = '-' then
        match takeDigits 2 cs with
        | some (hh, ':' :: cs') =>
            match takeDigits 2 cs' with
            | some (mm, []) =>
                if hh ≤ 23 && mm ≤ 59 then
                  let mins : Int := Int.ofNat (hh * 60 + mm)
                  some (some (if sign = '-' then -mins else mins))
                else none
            | _ => none
        | _ => none
      else none

/-- Parse fractional seconds: nothing, or `.` followed by 1–6 digits
(value in microseconds), then the timezone suffix. -/
def parseFracAndTz : List Char → Option (Nat × Option Int)
  | '.' :: cs =>
      let digits := cs.takeWhile isDigit
      let rest := cs.dropWhile isDigit
      if digits.length = 0 || 6 < digits.length then none
      else
        (parseTzSuffix rest).map
          (fun tz => (digitsToNat digits * 10 ^ (6 - digits.length), tz))
  | cs => (parseTzSuffix cs).map (fun tz => (0, tz))

/-- Modelled from the `dateutil.parser.isoparse` library function
(dependency of `app/services/normalizer.py`): accepts the common
ISO-8601 extended forms `YYYY-MM-DD`, optionally followed by
`THH:MM[:SS[.ffffff]]` and an optional `Z` or `±HH:MM` offset, with
calendar validation as in Python's `datetime` constructor. The more
exotic inputs `isoparse` tolerates (basic format, week dates, reduced
precision) are not modelled; the pipeline's claims do not depend on
them. -/
def isoparse (s : String) : Option PyDatetime :=
  match takeDigits 4 s.data with
  | some (y, '-' :: cs1) =>
    match takeDigits 2 cs1 with
    | some (mo, '-' :: cs2) =>
      match takeDigits 2 cs2 with
      | some (d, rest) =>
        if 1 ≤ mo && mo ≤ 12 && 1 ≤ d && d ≤ daysInMonth y mo then
          match rest with
          | [] => some ⟨y, mo, d, 0, 0, 0, 0, none⟩
          | 'T' :: cs3 =>
            match takeDigits 2 cs3 with
            | some (hh, ':' :: cs4) =>
              match takeDigits 2 cs4 with
              | some (mi, cs5) =>
                if hh ≤ 23 && mi ≤ 59 then
                  match cs5 with
                  | ':' :: cs6 =>
                    match takeDigits 2 cs6 with
                    | some (ss, cs7) =>
                      if ss ≤ 59 then
                        (parseFracAndTz cs7).map
                          (fun p => ⟨y, mo, d, hh, mi, ss, p.1, p.2⟩)
                      else none
                    | _ => none
                  | _ =>
                      (parseTzSuffix cs5).map (fun tz => ⟨y, mo, d, hh, mi, 0, 0, tz⟩)
                else none
              | _ => none
            | _ => none
          | _ => none
        else none
      | _ => none
    | _ => none
  | _ => none

/-! ## `Article` (`app/models/article.py`) -/

/-- The canonical `Article` pydantic model. `url` is stored parsed, as
pydantic does; `article_hash` is optional and filled by
`model_post_init`. -/
structure Article where
  source : String
  source_name : String
  title : String
  description : Option String
  url : PyHttpUrl
  published_at : PyDatetime
  topic : Option String
  article_hash : Option String
deriving Repr, DecidableEq

/-- `Article.generate_hash`: SHA-256 of
`f"{self.title.lower().strip()}|{str(self.url)}"`, hex-truncated to 16
characters. -/
def Article.generate_hash (a : Article) : String :=
  (sha256HexOfString (pyStrip (pyLower a.title) ++ "|" ++ a.url.str)).take 16

/-- `Article(source=..., ...)` construction: pydantic field validation
(title 1–500 chars, description ≤ 2000 chars, `url` a valid `HttpUrl`)
followed by `model_post_init`, which populates `article_hash` from
`generate_hash` when it was not provided. A validation failure raises
`ValidationError`, modelled as `none`. -/
def Article.construct (source source_name title : String) (description : Option String)
    (url : String) (published_at : PyDatetime) (topic : Option String) : Option Article :=
  if title.length < 1 || 500 < title.length then none
  else if (match description with
           | some d => decide (2000 < d.length)
           | none => false) then none
  else
    match parseHttpUrl url with
    | none => none
    | some u =>
        let a : Article :=
          ⟨source, source_name, title, description, u, published_at, topic, none⟩
        some { a with article_hash := some a.generate_hash }

/-! ## Raw provider records -/

/-- A JSON field of a raw provider record: absent, JSON `null`, or a
string. Python's `dict.get` distinguishes absent (default used) from
`null` (`None` returned), and the normalizer's behavior differs on
them. -/
inductive JField where
  | absent
  | null
  | str (s : String)
deriving Repr, DecidableEq

/-- `raw.get(key, "")`: the string when present, `""` when the key is
absent; a JSON `null` has no string reading (attribute access on it
raises). -/
def JField.getD (default : String) : JField → Option String
  | .absent => some default
  | .null => none
  | .str s => some s

/-- `str(raw.get(key, ""))` as the worker's f-string performs it:
absent → `""`, `null` → Python's `str(None)` which is `"None"`. -/
def JField.pyStrOfGetD (f : JField) : String :=
  match f with
  | .absent => ""
  | .null => "None"
  | .str s => s

/-- The provider `source` object (`{"id": ..., "name": ...}`); `none`
fields cover both absent and `null` (indistinguishable through
`dict.get(key)` + truthiness). -/
structure RawSource where
  name : Option String
  id : Option String
deriving Repr, DecidableEq

/-- A raw NewsAPI record, restricted to the fields the pipeline reads. -/
structure RawArticle where
  source : Option RawSource
  title : JField
  description : JField
  url : JField
  publishedAt : JField
deriving Repr, DecidableEq

/-- Python truthiness filter for an optional string (`None` and `""`
are falsy), used for the `name or id or "unknown"` chain. -/
def pyTruthyStr : Option String → Option String
  | some s => if s = "" then none else some s
  | none => none

/-- `raw.get(key)` for a string-or-missing field followed by a
truthiness test: the string when present and nonempty. -/
def JField.truthyGet : JField → Option String
  | .str s => if s = "" then none else some s
  | _ => none

/-! ## `ArticleNormalizer` (`app/services/normalizer.py`) -/

/-- `ArticleNormalizer.normalize_newsapi_article`: validates title, URL
and publication date in source order, collapses a removed/empty
description to `None`, and constructs the `Article` (whose pydantic
validation may still reject). Every raised exception — including
`AttributeError` from `.strip()` on a JSON-`null` title or description
and pydantic's `ValidationError` — is caught by the enclosing handler
and yields `None`. -/
def ArticleNormalizer.normalize_newsapi_article
    (raw : RawArticle) (topic : Option String) : Option Article :=
  let sourceObj := raw.source.getD ⟨none, none⟩
  let source_name :=
    ((pyTruthyStr sourceObj.name).orElse (fun _ => pyTruthyStr sourceObj.id)).getD "unknown"
  match raw.title.getD "" with
  | none => none
  | some title0 =>
    let title := pyStrip title0
    if title = "" || pyLower title = "[removed]" then none
    else
      match raw.url.truthyGet with
      | none => none
      | some url =>
        match raw.publishedAt.truthyGet with
        | none => none
        | some published_str =>
          match isoparse published_str with
          | none => none
          | some published_at =>
            match raw.description.getD "" with
            | none => none
            | some desc0 =>
              let description0 := pyStrip desc0
              let description :=
                if pyLower description0 = "[removed]" || description0 = "" then none
                else some description0
              Article.construct "newsapi" source_name title description
                url published_at topic

/-- `ArticleNormalizer.normalize_batch`: normalize each record
independently, keeping the successes in order (for a source other than
`"newsapi"` every record is skipped with a warning). -/
def ArticleNormalizer.normalize_batch
    (raw_articles : List RawArticle) (source : String) (topic : Option String) :
    List Article :=
  if source = "newsapi" then
    raw_articles.filterMap (fun raw => ArticleNormalizer.normalize_newsapi_article raw topic)
  else []

/-! ## The worker's pre-normalization hasher
(`app/lambda_worker_handler.py`, step 2) -/

/-- The hash computation inlined in `process_single_message`:
`hashlib.sha256(f"{title.lower().strip()}|{str(url)}".encode()).hexdigest()[:16]`
for title and url already read as strings. -/
def workerHash (title url : String) : String :=
  (sha256HexOfString (pyStrip (pyLower title) ++ "|" ++ url)).take 16

/-- The hash loop body applied to one raw record:
`title = article.get("title", ""); url = article.get("url", "")`.
A JSON-`null` title raises `AttributeError` on `.lower()`, which
aborts the whole job (`none`); a `null` url is rendered `"None"` by
`str()`. -/
def workerArticleHash (a : RawArticle) : Option String :=
  match a.title.getD "" with
  | none => none
  | some t => some (workerHash t a.url.pyStrOfGetD)

/-- The step-2 loop over all fetched records; the first raised
exception aborts the job. -/
def computeHashes : List RawArticle → Option (List String)
  | [] => some []
  | a :: rest =>
    match workerArticleHash a, computeHashes rest with
    | some h, some hs => some (h :: hs)
    | _, _ => none

/-! ## `RedisDeduplication` (`app/services/redis_client.py`)

The remote Upstash store evaluates a pipeline of commands and answers
positionally (result `i` for command `i`), so a successful batch call
is modelled by applying the cache's key-existence state to each hash;
`callFails` models an HTTP/serialization failure of the whole call. -/

/-- `batch_check_exists`: empty input short-circuits to `[]` with no
network call; a failed call is caught and answered with all-`False`;
otherwise one `EXISTS` result per hash, in order. -/
def RedisDeduplication.batch_check_exists
    (cacheState : String → Bool) (callFails : Bool) (hashes : List String) :
    List Bool :=
  if hashes = [] then []
  else if callFails then List.replicate hashes.length false
  else hashes.map cacheState

/-- `batch_mark_processed`: empty input returns 0 with no call; a
failed call is caught and returns 0; otherwise every `SETEX` answers
`OK` and the count of hashes is returned. -/
def RedisDeduplication.batch_mark_processed
    (callFails : Bool) (hashes : List String) : Nat :=
  if hashes = [] then 0
  else if callFails then 0
  else hashes.length

/-! ## `S3Client` key generation (`app/services/s3_client.py`) -/

/-- Python `f"{n:0{width}d}"` for a natural number: decimal digits,
zero-padded on the left to `width`. -/
def pyFormat0 (width n : Nat) : String :=
  let s := Nat.repr n
  if s.length < width then
    String.mk (List.replicate (width - s.length) '0') ++ s
  else s

/-- The source sanitization of `_generate_normalized_key`:
`"".join(c if c.isalnum() else "_" for c in source.lower())`. -/
def sanitizeSource (source : String) : String :=
  ⟨(pyLower source).data.map (fun c => if pyIsAlnum c then c else '_')⟩

/-- `S3Client._generate_normalized_key`: the Hive-partitioned Parquet
key for one source and the processing timestamp. -/
def S3Client.generate_normalized_key (source : String) (ts : PyDatetime) : String :=
  "normalized/" ++
  "year=" ++ pyFormat0 4 ts.year ++ "/" ++
  "month=" ++ pyFormat0 2 ts.month ++ "/" ++
  "day=" ++ pyFormat0 2 ts.day ++ "/" ++
  "source=" ++ sanitizeSource source ++ "/" ++
  "articles_" ++ pyFormat0 2 ts.hour ++ pyFormat0 2 ts.minute ++ pyFormat0 2 ts.second ++
  ".parquet"

/-! ## The orchestrator (`process_single_message`) -/

/-- One pipeline run's environment: the message parameters, the fetch
outcome, the component configuration flags read from the environment
variables, and the behavior of the external cache and storage calls.
`cacheState` is the remote store's key-existence predicate at
check time. -/
structure WorkerEnv where
  query : String
  fetched : List RawArticle
  useRedis : Bool
  cacheState : String → Bool
  checkCallFails : Bool
  markCallFails : Bool
  useS3 : Bool
  rawStoreFails : Bool
  normStoreFails : Bool

/-- The result dictionary `process_single_message` returns
(`processing_time_ms` and the derived `cost_savings` block carry no
verified content and are omitted). -/
structure ProcessingResult where
  status : String
  query : String
  fetched : Nat
  duplicates : Nat
  new_articles : Nat
  stored : Nat
  message : Option String
deriving Repr, DecidableEq

/-- The externally visible calls a run makes: `none` means the call
never happened. -/
structure PipelineTrace where
  checkedHashes : Option (List String)
  normalizeInput : Option (List RawArticle)
  rawWrite : Option (List RawArticle)
  normalizedWrite : Option (List Article)
  markedHashes : Option (List String)
deriving Repr, DecidableEq

/-- An exception that escapes `process_single_message` (re-raised for
SQS retry / DLQ routing). -/
inductive PipeErr where
  | attributeError
  | rawStoreError
  | normStoreError
deriving Repr, DecidableEq

/-- Truncating 3-way zip, as Python's `zip`. -/
def zip3 {α β γ : Type} : List α → List β → List γ → List (α × β × γ)
  | a :: as, b :: bs, c :: cs => (a, b, c) :: zip3 as bs cs
  | _, _, _ => []

/-- The step-4 filter loop: walk `zip(raw_articles, article_hashes,
exists_list)`, counting duplicates and collecting the new articles and
their hashes in order. -/
def dedupFilter : List (RawArticle × String × Bool) → List RawArticle × List String × Nat
  | [] => ([], [], 0)
  | (a, h, ex) :: rest =>
    let (na, nh, d) := dedupFilter rest
    if ex then (na, nh, d + 1) else (a :: na, h :: nh, d)

/-- Steps 3–4 of the worker: batch-check the cache when Redis is
configured and filter, otherwise route every record as new. -/
def runDedup (env : WorkerEnv) (raw_articles : List RawArticle)
    (article_hashes : List String) : List RawArticle × List String × Nat :=
  if env.useRedis then
    dedupFilter (zip3 raw_articles article_hashes
      (RedisDeduplication.batch_check_exists env.cacheState env.checkCallFails
        article_hashes))
  else (raw_articles, article_hashes, 0)

/-- `process_single_message`, steps 1–9, as a function of the run
environment. Exceptions propagate as `Except.error`; a returned result
dictionary comes with the trace of external calls the run made. -/
def process_single_message (env : WorkerEnv) :
    Except PipeErr (ProcessingResult × PipelineTrace) :=
  let raw_articles := env.fetched
  let total_fetched := raw_articles.length
  if total_fetched = 0 then
    .ok ({ status := "success", query := env.query, fetched := 0, duplicates := 0,
           new_articles := 0, stored := 0,
           message := some "No articles found for query" },
         ⟨none, none, none, none, none⟩)
  else
    match computeHashes raw_articles with
    | none => .error .attributeError
    | some article_hashes =>
      let checkTrace := if env.useRedis then some article_hashes else none
      let filtered := runDedup env raw_articles article_hashes
      let new_articles := filtered.1
      let new_hashes := filtered.2.1
      let duplicate_count := filtered.2.2
      let new_count := new_articles.length
      if new_count = 0 then
        .ok ({ status := "success", query := env.query, fetched := total_fetched,
               duplicates := duplicate_count, new_articles := 0, stored := 0,
               message := some "All articles were duplicates (already processed)" },
             ⟨checkTrace, none, none, none, none⟩)
      else
        let normalized_articles :=
          ArticleNormalizer.normalize_batch new_articles "newsapi" (some env.query)
        let normalized_count := normalized_articles.length
        if env.useS3 && env.rawStoreFails then .error .rawStoreError
        else if env.useS3 && env.normStoreFails then .error .normStoreError
        else
          .ok ({ status := "success", query := env.query, fetched := total_fetched,
                 duplicates := duplicate_count, new_articles := new_count,
                 stored := normalized_count, message := none },
               ⟨checkTrace, some new_articles,
                if env.useS3 then some raw_articles else none,
                if env.useS3 then some normalized_articles else none,
                if env.useRedis && !new_hashes.isEmpty then some new_hashes else none⟩)

/-! ## Spec-side descriptions used to state the claims -/

/-- The records that survive deduplication, paired with their hashes,
as the spec describes them: all fetched records minus those whose hash
the cache reports as seen; all of them when the cache is disabled or
the check call failed (fail-open). -/
def dedupSurvivorPairs (env : WorkerEnv) : List (RawArticle × String) :=
  match computeHashes env.fetched with
  | none => []
  | some hs =>
    if env.useRedis && !env.checkCallFails then
      (env.fetched.zip hs).filter (fun p => !env.cacheState p.2)
    else env.fetched.zip hs

/-- The dedup-surviving records. -/
def survivorRecords (env : WorkerEnv) : List RawArticle :=
  (dedupSurvivorPairs env).map Prod.fst

/-- The dedup survivors' content hashes (the spec's "surviving
identifiers"). -/
def survivorHashes (env : WorkerEnv) : List String :=
  (dedupSurvivorPairs env).map Prod.snd

/-- The duplicate count as the spec describes it: fetched records whose
hash the cache reports as seen (zero when the cache is disabled or the
check call failed). -/
def specDuplicateCount (env : WorkerEnv) : Nat :=
  match computeHashes env.fetched with
  | none => 0
  | some hs =>
    if env.useRedis && !env.checkCallFails then
      ((env.fetched.zip hs).filter (fun p => env.cacheState p.2)).length
    else 0

/-- The `article_hash` values persisted with a list of stored
Articles. -/
def storedHashes (articles : List Article) : List String :=
  articles.filterMap Article.article_hash

/-- The result dictionary of a run, when the run returned one. -/
def resultOf (env : WorkerEnv) : Option ProcessingResult :=
  (process_single_message env).toOption.map Prod.fst

/-- The external-call trace of a run, when the run returned. -/
def traceOf (env : WorkerEnv) : Option PipelineTrace :=
  (process_single_message env).toOption.map Prod.snd

/-- Decidable check that `small` occurs as a prefix of `big`. -/
def segStartsWith : List Char → List Char → Bool
  | _, [] => true
  | [], _ :: _ => false
  | a :: as, b :: bs => a = b && segStartsWith as bs

/-- Decidable check that `small` occurs contiguously inside `big`. -/
def containsSeg : List Char → List Char → Bool
  | [], small => segStartsWith [] small
  | a :: rest, small => segStartsWith (a :: rest) small || containsSeg rest small

/-- `small` occurs as a contiguous substring of `big`. -/
def strContains (big small : String) : Bool :=
  containsSeg big.data small.data

/-! ## Concrete records and environments used in the instances -/

/-- A raw record with a bare-host URL (no path): valid for NewsAPI and
pydantic, but its `str(HttpUrl)` serialization gains a trailing `/`. -/
def c1Record : RawArticle :=
  ⟨some ⟨some "Example News", none⟩, .str "Climate Summit", .absent,
   .str "https://example.com", .str "2026-02-01T14:30:00Z"⟩

/-- A raw record whose publication timestamp is absent: it hashes fine
but fails normalization. -/
def recA : RawArticle :=
  ⟨some ⟨some "BBC News", some "bbc-news"⟩, .str "A", .str "desc",
   .str "https://x.io/p", .absent⟩

/-- A fully valid raw record. -/
def recB : RawArticle :=
  ⟨some ⟨some "BBC News", some "bbc-news"⟩, .str "A", .str "desc",
   .str "https://x.io/p", .str "2026-02-01T14:30:00Z"⟩

/-- A run fetching only `recA`, with Redis and S3 configured, an empty
cache, and all external calls succeeding: one dedup survivor, zero
normalized articles. -/
def envC2 : WorkerEnv :=
  ⟨"bitcoin", [recA], true, fun _ => false, false, false, true, false, false⟩

/-- The result dictionary of the `envC2` run. -/
def resC2 : ProcessingResult :=
  ⟨"success", "bitcoin", 1, 0, 1, 0, none⟩

/-- The trace of the `envC2` run. -/
def trC2 : PipelineTrace :=
  ⟨some ["3aaf932284bc3e3c"], some [recA], some [recA], some [],
   some ["3aaf932284bc3e3c"]⟩

/-- A run whose batch cache check fails while the cache itself would
report every hash as seen. -/
def envC4 : WorkerEnv :=
  ⟨"btc", [recB], true, fun _ => true, true, false, false, false, false⟩

/-- A run whose fetch returns no articles. -/
def envC6 : WorkerEnv :=
  ⟨"ai", [], false, fun _ => false, false, false, false, false, false⟩

/-- A run with neither Redis nor S3 configured fetching one valid
record. -/
def envC10 : WorkerEnv :=
  ⟨"ai", [recB], false, fun _ => false, false, false, false, false, false⟩

/-- A successful hash step yields exactly one hash per fetched record. -/
theorem computeHashes_length {raws : List RawArticle} {hs : List String}
    (h : computeHashes raws = some hs) : hs.length = raws.length := by
  induction raws generalizing hs with
  | nil =>
      simp only [computeHashes, Option.some.injEq] at h
      subst h; rfl
  | cons a rest ih =>
      simp only [computeHashes] at h
      cases hw : workerArticleHash a with
      | none => rw [hw] at h; exact absurd h (by simp)
      | some hv =>
          rw [hw] at h
          cases hr : computeHashes rest with
          | none => rw [hr] at h; exact absurd h (by simp)
          | some tl =>
              rw [hr] at h
              simp only [Option.some.injEq] at h
              subst h
              simp [ih hr]

/-- The filter loop accounts for every zipped item exactly once: kept
records plus the duplicate count equal the input length. -/
theorem dedupFilter_counts (l : List (RawArticle × String × Bool)) :
    (dedupFilter l).1.length + (dedupFilter l).2.2 = l.length := by
  induction l with
  | nil => rfl
  | cons x rest ih =>
      obtain ⟨a, h, ex⟩ := x
      rcases hdf : dedupFilter rest with ⟨na, nh, d⟩
      rw [hdf] at ih
      cases ex <;> simp [dedupFilter, hdf] <;> simp at ih <;> omega

/-- `zip3` over equal-length lists preserves the length. -/
theorem zip3_length {α β γ : Type} (a : List α) (b : List β) (c : List γ)
    (hb : b.length = a.length) (hc : c.length = a.length) :
    (zip3 a b c).length = a.length := by
  induction a generalizing b c with
  | nil => cases b <;> cases c <;> simp [zip3]
  | cons x xs ih =>
      cases b with
      | nil => simp at hb
      | cons y ys =>
          cases c with
          | nil => simp at hc
          | cons z zs =>
              simp only [zip3, List.length_cons] at *
              exact congrArg (· + 1) (ih ys zs (by omega) (by omega))

/-- A failed batch check answers `False` for every hash, in order. -/
theorem batch_check_exists_fail (cache : String → Bool) (hs : List String) :
    RedisDeduplication.batch_check_exists cache true hs =
      List.replicate hs.length false := by
  cases hs <;> simp [RedisDeduplication.batch_check_exists]

/-- A successful batch check answers the cache's state per hash, in
order. -/
theorem batch_check_exists_ok (cache : String → Bool) (hs : List String) :
    RedisDeduplication.batch_check_exists cache false hs = hs.map cache := by
  cases hs <;> simp [RedisDeduplication.batch_check_exists]

/-- The batch check answers one boolean per input hash. -/
theorem batch_check_exists_length (cache : String → Bool) (cf : Bool)
    (hs : List String) :
    (RedisDeduplication.batch_check_exists cache cf hs).length = hs.length := by
  cases hs <;> cases cf <;> simp [RedisDeduplication.batch_check_exists]

/-- Filtering an all-`false` existence list keeps everything and counts
no duplicates. -/
theorem dedupFilter_replicate_false (raws : List RawArticle) (hs : List String)
    (h : hs.length = raws.length) :
    dedupFilter (zip3 raws hs (List.replicate hs.length false)) = (raws, hs, 0) := by
  induction raws generalizing hs with
  | nil => cases hs <;> simp_all [zip3, dedupFilter]
  | cons a as ih =>
      cases hs with
      | nil => simp at h
      | cons x xs =>
          simp only [List.length_cons, List.replicate, zip3, dedupFilter]
          rw [ih xs (by simpa using h)]
          simp

/-- The positional filter over a per-hash cache answer equals filtering
the zipped pairs by the cache predicate on the hash. -/
theorem dedupFilter_map_cache (raws : List RawArticle) (hs : List String)
    (cache : String → Bool) (h : hs.length = raws.length) :
    dedupFilter (zip3 raws hs (hs.map cache)) =
      (((raws.zip hs).filter (fun p => !cache p.2)).map Prod.fst,
       ((raws.zip hs).filter (fun p => !cache p.2)).map Prod.snd,
       ((raws.zip hs).filter (fun p => cache p.2)).length) := by
  induction raws generalizing hs with
  | nil => cases hs <;> simp_all [zip3, dedupFilter]
  | cons a as ih =>
      cases hs with
      | nil => simp at h
      | cons x xs =>
          simp only [List.map, zip3, dedupFilter, List.zip, List.zipWith, List.filter]
          rw [ih xs (by simpa using h)]
          cases hcx : cache x <;> simp [List.zip]

/-- The dedup step computes exactly the spec-side survivors and
duplicate count, in every cache configuration. -/
theorem runDedup_eq (env : WorkerEnv) (hs : List String)
    (h : computeHashes env.fetched = some hs) :
    runDedup env env.fetched hs =
      (survivorRecords env, survivorHashes env, specDuplicateCount env) := by
  have hlen : hs.length = env.fetched.length := computeHashes_length h
  unfold runDedup survivorRecords survivorHashes specDuplicateCount dedupSurvivorPairs
  rw [h]
  cases hr : env.useRedis with
  | false =>
      simp only [Bool.false_and, Bool.false_eq_true, if_false]
      rw [List.map_fst_zip _ _ (le_of_eq hlen.symm), List.map_snd_zip _ _ (le_of_eq hlen)]
  | true =>
      cases hf : env.checkCallFails with
      | true =>
          simp only [Bool.true_and, Bool.not_true, Bool.false_eq_true, if_false, if_true,
            batch_check_exists_fail]
          rw [dedupFilter_replicate_false _ _ hlen]
          rw [List.map_fst_zip _ _ (le_of_eq hlen.symm), List.map_snd_zip _ _ (le_of_eq hlen)]
      | false =>
          simp only [Bool.true_and, Bool.not_false, if_true, batch_check_exists_ok]
          rw [dedupFilter_map_cache _ _ _ hlen]

/-- Dedup keeps and counts each fetched record exactly once. -/
theorem runDedup_counts (env : WorkerEnv) (hs : List String)
    (h : computeHashes env.fetched = some hs) :
    (runDedup env env.fetched hs).1.length + (runDedup env env.fetched hs).2.2 =
      env.fetched.length := by
  have hlen := computeHashes_length h
  unfold runDedup
  cases hr : env.useRedis with
  | false => simp
  | true =>
      simp only [if_true]
      rw [dedupFilter_counts]
      exact zip3_length _ _ _ hlen ((batch_check_exists_length _ _ _).trans hlen)

/-- With the cache disabled, dedup routes every record as new. -/
theorem runDedup_noRedis (env : WorkerEnv) (raws : List RawArticle) (hs : List String)
    (h : env.useRedis = false) : runDedup env raws hs = (raws, hs, 0) := by
  unfold runDedup
  rw [h]
  simp

/-- With a failing check call, dedup routes every record as new
(fail-open). -/
theorem runDedup_checkFails (env : WorkerEnv) (raws : List RawArticle)
    (hs : List String) (hlen : hs.length = raws.length) (hr : env.useRedis = true)
    (hf : env.checkCallFails = true) : runDedup env raws hs = (raws, hs, 0) := by
  unfold runDedup
  rw [hr, hf, if_pos rfl, batch_check_exists_fail, dedupFilter_replicate_false _ _ hlen]

/-! ## Auxiliary lemmas about strings and Article construction -/

/-- A zero-padded field prints at exactly its width whenever the value
fits in it. -/
theorem pyFormat0_length (w n : Nat) (hw : 0 < w) (h : n < 10 ^ w) :
    (pyFormat0 w n).length = w := by
  have hle := Nat.repr_length n w hw h
  have hrep : ∀ k : Nat, (String.mk (List.replicate k '0')).length = k := by
    intro k
    show (List.replicate k '0').length = k
    simp
  unfold pyFormat0
  by_cases hlt : (Nat.repr n).length < w
  · rw [if_pos hlt, String.length_append, hrep]
    omega
  · rw [if_neg hlt]
    omega

/-- Fuse two adjacent literal segments of a concatenation. -/
theorem strMerge (a b c : String) (h : a ++ b = c) (r : String) :
    a ++ (b ++ r) = c ++ r := by
  rw [← String.append_assoc, h]

/-- A list starts with its own prefix. -/
theorem segStartsWith_append (s t : List Char) : segStartsWith (s ++ t) s = true := by
  induction s with
  | nil => cases t <;> rfl
  | cons c cs ih => simp [segStartsWith, ih]

/-- A prefix occurrence is an occurrence. -/
theorem containsSeg_of_starts (big s : List Char) (h : segStartsWith big s = true) :
    containsSeg big s = true := by
  cases big with
  | nil => simpa [containsSeg] using h
  | cons a rest => simp [containsSeg, h]

/-- A middle segment is found by the substring scan. -/
theorem containsSeg_append (pre s t : List Char) :
    containsSeg (pre ++ (s ++ t)) s = true := by
  induction pre with
  | nil => exact containsSeg_of_starts _ _ (by simpa using segStartsWith_append s t)
  | cons p ps ih => simp [containsSeg, ih]

/-- A string occurs inside any concatenation that embeds it whole. -/
theorem strContains_of_append (pre s t : String) :
    strContains (pre ++ (s ++ t)) s = true := by
  unfold strContains
  rw [String.data_append, String.data_append]
  exact containsSeg_append pre.data s.data t.data

set_option maxRecDepth 100000 in
/-- **C1.** The claim states that for every (title, url) pair the
worker's pre-normalization dedup hash and the `article_hash` computed
in `Article` construction are byte-for-byte identical. The code
violates it: at title `"Climate Summit"` and url
`"https://example.com"` the worker hashes the raw URL string while
`Article.generate_hash` hashes `str(self.url)`, which pydantic
normalizes to `"https://example.com/"` (trailing slash), so the two
16-hex-character hashes differ. -/
theorem c1_hash_call_sites_diverge :
    workerArticleHash c1Record = some "f9e976518423481d" ∧
    (ArticleNormalizer.normalize_newsapi_article c1Record none).map Article.article_hash =
      some (some "104c09029a182790") ∧
    ("f9e976518423481d" : String) ≠ "104c09029a182790" :=
  ⟨rfl, rfl, by decide⟩

set_option maxRecDepth 100000 in
/-- **C2 (counterexample).** In the `envC2` run (one fetched record
that survives deduplication but fails normalization) the pipeline
reaches the mark-processed step and marks the record's hash, while the
normalized store receives no articles — so mark-processed does not
receive "exactly the stored hashes" as the claim states. -/
theorem c2_mark_receives_unstored_hash :
    (traceOf envC2).map PipelineTrace.markedHashes = some (some ["3aaf932284bc3e3c"]) ∧
    (traceOf envC2).map PipelineTrace.normalizedWrite = some (some []) ∧
    some ["3aaf932284bc3e3c"] ≠ some (storedHashes []) :=
  ⟨rfl, rfl, by decide⟩

/-- **C2 (amended).** Whenever a run returns and made a mark-processed
call, the marked list is exactly the hashes of the records that
survived deduplication (`new_hashes`) — including records that
normalization later rejected — and it is nonempty. -/
theorem c2_marked_are_dedup_survivor_hashes (env : WorkerEnv)
    (r : ProcessingResult) (tr : PipelineTrace) (l : List String)
    (h : process_single_message env = .ok (r, tr))
    (hm : tr.markedHashes = some l) :
    l = survivorHashes env ∧ l ≠ [] := by
  simp only [process_single_message] at h
  split at h
  · simp only [Except.ok.injEq, Prod.mk.injEq] at h
    obtain ⟨h1, h2⟩ := h
    rw [← h2] at hm
    exact absurd hm (by simp)
  · rename_i h0
    split at h
    · exact absurd h (by simp)
    · rename_i hs hcomp
      split at h
      · simp only [Except.ok.injEq, Prod.mk.injEq] at h
        obtain ⟨h1, h2⟩ := h
        rw [← h2] at hm
        exact absurd hm (by simp)
      · rename_i hnc
        split at h
        · exact absurd h (by simp)
        · split at h
          · exact absurd h (by simp)
          · simp only [Except.ok.injEq, Prod.mk.injEq] at h
            obtain ⟨h1, h2⟩ := h
            rw [← h2] at hm
            simp only [] at hm
            split at hm
            · rename_i hcond
              simp only [Option.some.injEq] at hm
              subst hm
              have he := runDedup_eq env hs hcomp
              constructor
              · rw [he]
              · intro hnil
                rw [hnil] at hcond
                simp at hcond
            · exact absurd hm (by simp)

set_option maxRecDepth 100000 in
/-- **C2 (witness).** In the `envC2` run the marked list equals the
dedup survivors' hashes. -/
theorem c2_marked_are_dedup_survivor_hashes_witness :
    (["3aaf932284bc3e3c"] : List String) = survivorHashes envC2 ∧
    (["3aaf932284bc3e3c"] : List String) ≠ [] :=
  c2_marked_are_dedup_survivor_hashes envC2 resC2 trC2 ["3aaf932284bc3e3c"] rfl rfl

set_option maxRecDepth 100000 in
/-- **C3 (counterexample).** In the `envC2` run the fetch count is 1,
the single record survives deduplication, and every survivor fails
normalization — yet `process_single_message` returns a success
`ProcessingResult` with `stored = 0`, not a job-level error. -/
theorem c3_all_rejected_returns_success :
    envC2.fetched.length = 1 ∧
    survivorRecords envC2 = [recA] ∧
    ArticleNormalizer.normalize_batch (survivorRecords envC2) "newsapi"
      (some "bitcoin") = [] ∧
    (resultOf envC2).map ProcessingResult.status = some "success" ∧
    (resultOf envC2).map ProcessingResult.stored = some 0 :=
  ⟨rfl, rfl, rfl, rfl, rfl⟩

/-- **C3 (amended).** When the fetch count is nonzero, at least one
record survives deduplication, and every surviving record fails
normalization, the pipeline does not surface a job-level error: it
returns a success `ProcessingResult` with `stored = 0` and
`new_articles` equal to the survivor count (provided the hash step and
the storage writes themselves do not fail). -/
theorem c3_all_rejected_is_success (env : WorkerEnv) (hs : List String)
    (hfetch : env.fetched ≠ [])
    (hcomp : computeHashes env.fetched = some hs)
    (hsurv : survivorRecords env ≠ [])
    (hnormzero : ArticleNormalizer.normalize_batch (survivorRecords env) "newsapi"
      (some env.query) = [])
    (hraw : (env.useS3 && env.rawStoreFails) = false)
    (hnorm : (env.useS3 && env.normStoreFails) = false) :
    (resultOf env).map ProcessingResult.status = some "success" ∧
    (resultOf env).map ProcessingResult.stored = some 0 ∧
    (resultOf env).map ProcessingResult.new_articles = some (survivorRecords env).length ∧
    (resultOf env).map ProcessingResult.fetched = some env.fetched.length := by
  unfold resultOf
  have hlen0 : env.fetched.length ≠ 0 := by
    simpa using fun hh => hfetch (List.length_eq_zero.mp hh)
  simp only [process_single_message, hcomp, if_neg hlen0, runDedup_eq env hs hcomp]
  rw [if_neg (by simpa using fun hh => hsurv (List.length_eq_zero.mp hh))]
  rw [hraw, hnorm]
  simp [hnormzero, Except.toOption]

set_option maxRecDepth 100000 in
/-- **C3 (witness).** The amended statement at the concrete `envC2`
run. -/
theorem c3_all_rejected_is_success_witness :
    (resultOf envC2).map ProcessingResult.status = some "success" ∧
    (resultOf envC2).map ProcessingResult.stored = some 0 ∧
    (resultOf envC2).map ProcessingResult.new_articles =
      some (survivorRecords envC2).length ∧
    (resultOf envC2).map ProcessingResult.fetched = some envC2.fetched.length :=
  c3_all_rejected_is_success envC2 ["3aaf932284bc3e3c"] (by decide) rfl
    (by decide) rfl rfl rfl

/-- **C4.** Fail-open cache: a failed batch existence check returns one
`False` per input hash; a run whose check call fails reports
`duplicates = 0`, routes all fetched records to normalization, and
still returns a result (the cache failure never fails the job). -/
theorem c4_fail_open_cache :
    (∀ (cache : String → Bool) (hashes : List String), hashes ≠ [] →
      RedisDeduplication.batch_check_exists cache true hashes =
        List.replicate hashes.length false) ∧
    (∀ (env : WorkerEnv) (hs : List String), env.useRedis = true →
      env.checkCallFails = true → env.fetched ≠ [] →
      computeHashes env.fetched = some hs →
      (env.useS3 && env.rawStoreFails) = false →
      (env.useS3 && env.normStoreFails) = false →
      (resultOf env).isSome = true ∧
      (resultOf env).map ProcessingResult.duplicates = some 0 ∧
      (resultOf env).map ProcessingResult.new_articles = some env.fetched.length ∧
      (traceOf env).map PipelineTrace.normalizeInput = some (some env.fetched)) := by
  constructor
  · intro cache hashes _
    exact batch_check_exists_fail cache hashes
  · intro env hs hr hf hfetch hcomp hraw hnorm
    have hlen := computeHashes_length hcomp
    have hlen0 : env.fetched.length ≠ 0 := by
      simpa using fun hh => hfetch (List.length_eq_zero.mp hh)
    unfold resultOf traceOf
    simp only [process_single_message, hcomp, if_neg hlen0,
      runDedup_checkFails env _ _ hlen hr hf]
    simp [hraw, hnorm, Except.toOption]

set_option maxRecDepth 100000 in
/-- **C4 (witness).** The fail-open behavior at a concrete run whose
cache holds every hash but whose check call fails. -/
theorem c4_fail_open_cache_witness :
    RedisDeduplication.batch_check_exists (fun _ => true) true ["3aaf932284bc3e3c"] =
      List.replicate 1 false ∧
    (resultOf envC4).map ProcessingResult.duplicates = some 0 ∧
    (traceOf envC4).map PipelineTrace.normalizeInput = some (some [recB]) :=
  ⟨(c4_fail_open_cache.1 (fun _ => true) ["3aaf932284bc3e3c"] (by decide)),
   (c4_fail_open_cache.2 envC4 ["3aaf932284bc3e3c"] rfl rfl (by decide) rfl rfl rfl).2.1,
   (c4_fail_open_cache.2 envC4 ["3aaf932284bc3e3c"] rfl rfl (by decide) rfl rfl rfl).2.2.2⟩

/-- **C6.** Zero-result short-circuit: a run whose fetch returns an
empty list yields the success result with all counters zero, and its
trace shows no cache check, no mark call, no normalization input, and
no raw or normalized write. -/
theorem c6_zero_result_short_circuit (env : WorkerEnv) (h : env.fetched = []) :
    process_single_message env =
      .ok ({ status := "success", query := env.query, fetched := 0, duplicates := 0,
             new_articles := 0, stored := 0,
             message := some "No articles found for query" },
           ⟨none, none, none, none, none⟩) := by
  simp [process_single_message, h]

/-- **C6 (witness).** The short-circuit at the concrete empty-fetch
run. -/
theorem c6_zero_result_short_circuit_witness :
    process_single_message envC6 =
      .ok ({ status := "success", query := "ai", fetched := 0, duplicates := 0,
             new_articles := 0, stored := 0,
             message := some "No articles found for query" },
           ⟨none, none, none, none, none⟩) :=
  c6_zero_result_short_circuit envC6 rfl

/-- **C7.** The normalized storage key has the Hive-style form
`normalized/year={YYYY}/month={MM}/day={DD}/source={sanitized_source}/articles_{HHMMSS}.parquet`
with zero-padded date fields (widths 4/2/2 whenever the values fit);
in particular every key for a timestamp on 2026-02-06 with sanitized
source `newsapi` contains
`year=2026/month=02/day=06/source=newsapi`. -/
theorem c7_normalized_key_format :
    (∀ (source : String) (ts : PyDatetime),
      S3Client.generate_normalized_key source ts =
        "normalized/year=" ++ pyFormat0 4 ts.year ++ "/month=" ++ pyFormat0 2 ts.month ++
        "/day=" ++ pyFormat0 2 ts.day ++ "/source=" ++ sanitizeSource source ++
        "/articles_" ++ pyFormat0 2 ts.hour ++ pyFormat0 2 ts.minute ++
        pyFormat0 2 ts.second ++ ".parquet") ∧
    (∀ n : Nat, n < 10000 → (pyFormat0 4 n).length = 4) ∧
    (∀ n : Nat, n < 100 → (pyFormat0 2 n).length = 2) ∧
    (∀ ts : PyDatetime, ts.year = 2026 → ts.month = 2 → ts.day = 6 →
      strContains (S3Client.generate_normalized_key "newsapi" ts)
        "year=2026/month=02/day=06/source=newsapi" = true) := by
  refine ⟨?_, ?_, ?_, ?_⟩
  · intro source ts
    unfold S3Client.generate_normalized_key
    simp only [String.append_assoc]
    rw [strMerge "normalized/" "year=" "normalized/year=" rfl,
        strMerge "/" "month=" "/month=" rfl,
        strMerge "/" "day=" "/day=" rfl,
        strMerge "/" "source=" "/source=" rfl,
        strMerge "/" "articles_" "/articles_" rfl]
  · intro n hn
    exact pyFormat0_length 4 n (by omega) (by omega)
  · intro n hn
    exact pyFormat0_length 2 n (by omega) (by omega)
  · intro ts hy hm hd
    obtain ⟨y, mo, d, hh, mi, ss, ms, tz⟩ := ts
    simp only at hy hm hd
    subst hy; subst hm; subst hd
    unfold S3Client.generate_normalized_key
    simp only [String.append_assoc]
    rw [show pyFormat0 4 2026 = "2026" from rfl,
        show pyFormat0 2 2 = "02" from rfl,
        show pyFormat0 2 6 = "06" from rfl,
        show sanitizeSource "newsapi" = "newsapi" from rfl]
    rw [strMerge "year=" "2026" "year=2026" rfl,
        strMerge "year=2026" "/" "year=2026/" rfl,
        strMerge "year=2026/" "month=" "year=2026/month=" rfl,
        strMerge "year=2026/month=" "02" "year=2026/month=02" rfl,
        strMerge "year=2026/month=02" "/" "year=2026/month=02/" rfl,
        strMerge "year=2026/month=02/" "day=" "year=2026/month=02/day=" rfl,
        strMerge "year=2026/month=02/day=" "06" "year=2026/month=02/day=06" rfl,
        strMerge "year=2026/month=02/day=06" "/" "year=2026/month=02/day=06/" rfl,
        strMerge "year=2026/month=02/day=06/" "source="
          "year=2026/month=02/day=06/source=" rfl,
        strMerge "year=2026/month=02/day=06/source=" "newsapi"
          "year=2026/month=02/day=06/source=newsapi" rfl]
    exact strContains_of_append "normalized/" "year=2026/month=02/day=06/source=newsapi" _

/-- **C7 (witness).** The key format at the concrete timestamp
2026-02-06 14:30:52 with source `newsapi`. -/
theorem c7_normalized_key_format_witness :
    S3Client.generate_normalized_key "newsapi" ⟨2026, 2, 6, 14, 30, 52, 0, none⟩ =
      "normalized/year=" ++ pyFormat0 4 2026 ++ "/month=" ++ pyFormat0 2 2 ++
      "/day=" ++ pyFormat0 2 6 ++ "/source=" ++ sanitizeSource "newsapi" ++
      "/articles_" ++ pyFormat0 2 14 ++ pyFormat0 2 30 ++ pyFormat0 2 52 ++
      ".parquet" ∧
    (pyFormat0 4 2026).length = 4 ∧
    strContains (S3Client.generate_normalized_key "newsapi" ⟨2026, 2, 6, 14, 30, 52, 0, none⟩)
      "year=2026/month=02/day=06/source=newsapi" = true ∧
    S3Client.generate_normalized_key "newsapi" ⟨2026, 2, 6, 14, 30, 52, 0, none⟩ =
      "normalized/year=2026/month=02/day=06/source=newsapi/articles_143052.parquet" :=
  ⟨c7_normalized_key_format.1 "newsapi" ⟨2026, 2, 6, 14, 30, 52, 0, none⟩,
   c7_normalized_key_format.2.1 2026 (by omega),
   c7_normalized_key_format.2.2.2 ⟨2026, 2, 6, 14, 30, 52, 0, none⟩ rfl rfl rfl,
   by decide⟩

/-- **C8.** The content hash is invariant under leading/trailing
whitespace and ASCII letter case of the title: concretely
`hash("Climate Summit", u) = hash("  climate summit  ", u)` for every
url `u`, and in general titles that agree after lower-casing and
trimming hash identically for every url. -/
theorem c8_hash_case_whitespace_insensitive :
    (∀ u : String, workerHash "Climate Summit" u = workerHash "  climate summit  " u) ∧
    (∀ t t' u : String, pyStrip (pyLower t) = pyStrip (pyLower t') →
      workerHash t u = workerHash t' u) := by
  have hgen : ∀ t t' u : String, pyStrip (pyLower t) = pyStrip (pyLower t') →
      workerHash t u = workerHash t' u := by
    intro t t' u h
    unfold workerHash sha256HexOfString
    rw [h]
  exact ⟨fun u => hgen _ _ u (by decide), hgen⟩

set_option maxRecDepth 100000 in
/-- **C8 (witness).** The insensitivity at a concrete url, with the
hash evaluated. -/
theorem c8_hash_case_whitespace_insensitive_witness :
    workerHash "Climate Summit" "https://example.com" =
      workerHash "  climate summit  " "https://example.com" ∧
    workerHash "Climate Summit" "https://example.com" = "f9e976518423481d" :=
  ⟨c8_hash_case_whitespace_insensitive.2 "Climate Summit" "  climate summit  "
      "https://example.com" (by decide),
   by decide⟩

/-- **C9.** In every returned result dictionary the counters satisfy
`duplicates + new_articles = fetched`; with the cache disabled,
`duplicates = 0` and `new_articles = fetched`. -/
theorem c9_counters_partition_fetched (env : WorkerEnv) (r : ProcessingResult)
    (tr : PipelineTrace) (h : process_single_message env = .ok (r, tr)) :
    r.duplicates + r.new_articles = r.fetched ∧
      (env.useRedis = false → r.duplicates = 0 ∧ r.new_articles = r.fetched) := by
  simp only [process_single_message] at h
  split at h
  · rename_i h0
    simp only [Except.ok.injEq, Prod.mk.injEq] at h
    obtain ⟨h1, h2⟩ := h
    subst h1
    simp
  · rename_i h0
    split at h
    · exact absurd h (by simp)
    · rename_i hs hcomp
      have hc := runDedup_counts env hs hcomp
      split at h
      · rename_i hnc
        simp only [Except.ok.injEq, Prod.mk.injEq] at h
        obtain ⟨h1, h2⟩ := h
        subst h1
        refine ⟨by simp; omega, ?_⟩
        intro hnr
        rw [runDedup_noRedis env _ _ hnr] at hnc
        simp at hnc
        exact absurd (by simp [hnc]) h0
      · rename_i hnc
        split at h
        · exact absurd h (by simp)
        · split at h
          · exact absurd h (by simp)
          · simp only [Except.ok.injEq, Prod.mk.injEq] at h
            obtain ⟨h1, h2⟩ := h
            subst h1
            refine ⟨by simp; omega, ?_⟩
            intro hnr
            rw [runDedup_noRedis env _ _ hnr]
            simp

set_option maxRecDepth 100000 in
/-- **C9 (witness).** The counter partition at the concrete `envC2`
run. -/
theorem c9_counters_partition_fetched_witness :
    resC2.duplicates + resC2.new_articles = resC2.fetched :=
  (c9_counters_partition_fetched envC2 resC2 trC2 rfl).1

/-- **C10.** With object storage unconfigured, a run (whose hash step
succeeds) still returns a success result; its trace shows neither a
raw nor a normalized write, and `stored` equals the number of
successfully normalized dedup survivors — normalization survivors, not
durably written records. -/
theorem c10_no_storage_still_success (env : WorkerEnv) (hs3 : env.useS3 = false)
    (hsome : (computeHashes env.fetched).isSome = true) :
    (resultOf env).map ProcessingResult.status = some "success" ∧
    (traceOf env).map PipelineTrace.rawWrite = some none ∧
    (traceOf env).map PipelineTrace.normalizedWrite = some none ∧
    (resultOf env).map ProcessingResult.stored =
      some (ArticleNormalizer.normalize_batch (survivorRecords env) "newsapi"
        (some env.query)).length := by
  obtain ⟨hs, hcomp⟩ := Option.isSome_iff_exists.mp hsome
  unfold resultOf traceOf
  by_cases h0 : env.fetched.length = 0
  · have hnil : env.fetched = [] := List.length_eq_zero.mp h0
    have hsurv : survivorRecords env = [] := by
      simp [survivorRecords, dedupSurvivorPairs, hnil, computeHashes]
    simp [process_single_message, hnil, hsurv, ArticleNormalizer.normalize_batch,
      Except.toOption]
  · simp only [process_single_message, hcomp, if_neg h0, runDedup_eq env hs hcomp, hs3,
      Bool.false_and, Bool.false_eq_true, if_false]
    by_cases hnc : (survivorRecords env).length = 0
    · rw [if_pos hnc]
      have hsurv : survivorRecords env = [] := List.length_eq_zero.mp hnc
      simp [hsurv, ArticleNormalizer.normalize_batch, Except.toOption]
    · rw [if_neg hnc]
      simp [Except.toOption]

set_option maxRecDepth 100000 in
/-- **C10 (witness).** The storage-less success at the concrete
`envC10` run (one valid record, `stored = 1`, nothing written). -/
theorem c10_no_storage_still_success_witness :
    (resultOf envC10).map ProcessingResult.status = some "success" ∧
    (traceOf envC10).map PipelineTrace.rawWrite = some none ∧
    (traceOf envC10).map PipelineTrace.normalizedWrite = some none ∧
    (resultOf envC10).map ProcessingResult.stored =
      some (ArticleNormalizer.normalize_batch (survivorRecords envC10) "newsapi"
        (some "ai")).length :=
  c10_no_storage_still_success envC10 rfl (by decide)

end NewsPipeline

/-! ## Validation vectors

Known-answer checks grounding the embedding: the FIPS 180-4 SHA-256
test vector for `"abc"`, the pydantic URL trailing-slash
normalization, and `isoparse` accepting a well-formed timestamp while
rejecting an invalid calendar date and a non-date string. -/

example : NewsPipeline.sha256HexOfString "abc" =
    "ba7816bf8f01cfea414140de5dae2223b00361a396177a9cb410ff61f20015ad" := by decide
example : NewsPipeline.parseHttpUrl "https://example.com" =
    some ⟨"https", "example.com", ""⟩ := by decide
example : (NewsPipeline.PyHttpUrl.str ⟨"https", "example.com", ""⟩) =
    "https://example.com/" := by decide
example : (NewsPipeline.isoparse "2026-02-01T14:30:00Z").isSome := by decide
example : (NewsPipeline.isoparse "2026-02-30T14:30:00Z").isNone := by decide
example : (NewsPipeline.isoparse "not a date").isNone := by decide
example : NewsPipeline.parseHttpUrl "https://ex ample.com/x" = none := by decide
example : NewsPipeline.parseHttpUrl "ftp://example.com/x" = none := by decide
example : NewsPipeline.parseHttpUrl
    ("https://example.com/" ++ String.mk (List.replicate 2100 'a')) = none := by
  have h2 : (String.mk (List.replicate 2100 'a')).length = 2100 := by
    show (List.replicate 2100 'a').length = 2100
    exact List.length_replicate 2100 'a'
  have h : 2083 <
      ("https://example.com/" ++ String.mk (List.replicate 2100 'a')).length := by
    rw [String.length_append, h2, show ("https://example.com/").length = 20 from rfl]
    norm_num
  unfold NewsPipeline.parseHttpUrl
  rw [if_pos h]
